import Mathlib

/-!
Shallow embedding of the Khlick/gcode-converter repository
(src/image_to_gcode.py and src/svg_to_gcode.py).

Coordinates are modelled as exact rationals; fallible Python code
(unhandled exceptions) is modelled with Except.  Instructions are the
abstract toolpath commands of the spec; the serializers render each
instruction to one output line, which the converters join with newlines
on write.
-/

namespace GcodeConverter

/-! ### Data model -/

/-- Kind tag of an svgpathtools path segment (Line, QuadraticBezier,
CubicBezier, Arc).  The source function path_to_gcode reads only the
start and end attributes of a segment, never its kind. -/
inductive SegKind
  | line
  | quadraticBezier
  | cubicBezier
  | arc
deriving DecidableEq, Repr

/-- A path segment.  Python complex numbers start and end are modelled as
(re, im) pairs; the field stop models the Python attribute named end,
which is a Lean keyword. -/
structure Segment where
  kind : SegKind
  start : ℚ × ℚ
  stop : ℚ × ℚ
deriving DecidableEq, Repr

/-- One SVG path: a list of segments, as iterated by the source. -/
abbrev SvgPath := List Segment

/-- Parsed SVG attributes relevant to calculate_scaling_factor_and_transform:
the four viewBox numbers when a viewBox is declared, and the raw text of
the height attribute when one is declared. -/
structure SvgAttributes where
  viewBox : Option (ℚ × ℚ × ℚ × ℚ)
  height : Option String
deriving DecidableEq, Repr

/-- Unhandled Python exceptions raised by the svg converter:
nameError models the NameError at src/svg_to_gcode.py line 177 (the
identifier s_attr is undefined); valueErrorNoHeight models the explicit
ValueError for a missing height; zeroDivisionError models the
ZeroDivisionError from dividing by a zero longest side. -/
inductive PyError
  | nameError
  | valueErrorNoHeight
  | zeroDivisionError
deriving DecidableEq, Repr

/-- Abstract toolpath instruction (the spec's Instruction type, restricted
to the constructors the emitters produce per curve). -/
inductive Instr
  | rapidMove (x y : ℚ)
  | laserOn (power : ℤ)
  | linearMove (x y : ℚ) (feedRate : ℤ)
  | laserOff
deriving DecidableEq, Repr

/-! ### Bounding-box scan helpers

The source scans all segment endpoints with running min/max updates
seeded with float infinities.  The sentinel level is modelled faithfully
by the XFloat scan below (scanMin, scanMax, currentLongestSideX): on an
empty scan the sentinels survive, exactly as in the source.  The
rational helpers minOver and maxOver give the scan's finite value, which
it has exactly when the scanned list is nonempty. -/

/-- All endpoints of all segments of all paths, in scan order. -/
def endpointList (paths : List SvgPath) : List (ℚ × ℚ) :=
  paths.flatMap (fun p => p.flatMap (fun s => [s.start, s.stop]))

/-- Finite value of the running minimum, meaningful for a nonempty scan
(scanMin below carries the sentinel semantics: on the empty list the
scan's value is the posInf sentinel, never the 0 returned here, and no
theorem relies on this default). -/
def minOver (l : List ℚ) : ℚ :=
  match l with
  | [] => 0
  | x :: xs => xs.foldl min x

/-- Finite value of the running maximum, meaningful for a nonempty scan
(scanMax below carries the sentinel semantics). -/
def maxOver (l : List ℚ) : ℚ :=
  match l with
  | [] => 0
  | x :: xs => xs.foldl max x

/-- Value of a running bounding-box scan variable, which the source seeds
with float("inf") / float("-inf"): a float infinity sentinel that
survives an empty scan, or a finite coordinate. -/
inductive XFloat
  | negInf
  | fin (q : ℚ)
  | posInf
deriving DecidableEq, Repr

/-- Float minimum on scan values (nan never appears in a scan, every
scanned coordinate being finite). -/
def XFloat.fmin : XFloat → XFloat → XFloat
  | .negInf, _ => .negInf
  | _, .negInf => .negInf
  | .posInf, b => b
  | a, .posInf => a
  | .fin a, .fin b => .fin (min a b)

/-- Float maximum on scan values. -/
def XFloat.fmax : XFloat → XFloat → XFloat
  | .posInf, _ => .posInf
  | _, .posInf => .posInf
  | .negInf, b => b
  | a, .negInf => a
  | .fin a, .fin b => .fin (max a b)

/-- Float subtraction on scan values.  The two same-infinity
combinations are IEEE nan; they cannot arise where this function is
used, since a scan's maximum is negInf exactly when its minimum is
posInf (the empty scan); they are mapped to fin 0. -/
def XFloat.fsub : XFloat → XFloat → XFloat
  | .fin a, .fin b => .fin (a - b)
  | .negInf, .posInf => .negInf
  | .negInf, .fin _ => .negInf
  | .fin _, .posInf => .negInf
  | .posInf, .fin _ => .posInf
  | .posInf, .negInf => .posInf
  | .fin _, .negInf => .posInf
  | .negInf, .negInf => .fin 0
  | .posInf, .posInf => .fin 0

/-- The source's running-minimum scan (src/svg_to_gcode.py lines
183-195), seeded with the float("inf") sentinel, which survives an
empty scan. -/
def scanMin (l : List ℚ) : XFloat :=
  l.foldl (fun acc x => XFloat.fmin acc (.fin x)) .posInf

/-- The source's running-maximum scan, seeded with float("-inf"). -/
def scanMax (l : List ℚ) : XFloat :=
  l.foldl (fun acc x => XFloat.fmax acc (.fin x)) .negInf

/-- Minimum x over a point list. -/
def ptsMinX (pts : List (ℚ × ℚ)) : ℚ := minOver (pts.map Prod.fst)

/-- Maximum x over a point list. -/
def ptsMaxX (pts : List (ℚ × ℚ)) : ℚ := maxOver (pts.map Prod.fst)

/-- Minimum y over a point list. -/
def ptsMinY (pts : List (ℚ × ℚ)) : ℚ := minOver (pts.map Prod.snd)

/-- Maximum y over a point list. -/
def ptsMaxY (pts : List (ℚ × ℚ)) : ℚ := maxOver (pts.map Prod.snd)

/-- Longest side of a point list's bounding box:
max(max_x - min_x, max_y - min_y). -/
def ptsLongestSide (pts : List (ℚ × ℚ)) : ℚ :=
  max (ptsMaxX pts - ptsMinX pts) (ptsMaxY pts - ptsMinY pts)

/-- Center of a point list's bounding box. -/
def ptsCenter (pts : List (ℚ × ℚ)) : ℚ × ℚ :=
  ((ptsMinX pts + ptsMaxX pts) / 2, (ptsMinY pts + ptsMaxY pts) / 2)

/-! ### svg_to_gcode.py -/

/-- Height extraction of calculate_scaling_factor_and_transform
(src/svg_to_gcode.py lines 174-181): the fourth viewBox number when a
viewBox is declared; otherwise the height branch evaluates the undefined
identifier s_attr and raises NameError; otherwise ValueError. -/
def extractSvgHeight (svgAttributes : SvgAttributes) : Except PyError ℚ :=
  match svgAttributes.viewBox with
  | some (_, _, _, h) => .ok h
  | none =>
    match svgAttributes.height with
    | some _ => .error .nameError
    | none => .error .valueErrorNoHeight

/-- Vertical flip of one segment (src/svg_to_gcode.py lines 198-201):
each endpoint keeps its real part and its imaginary part becomes
svg_height minus the old imaginary part. -/
def flipSeg (svgHeight : ℚ) (s : Segment) : Segment :=
  { s with
    start := (s.start.1, svgHeight - s.start.2),
    stop := (s.stop.1, svgHeight - s.stop.2) }

/-- In-place flip of every segment of every path, modelled as the
post-state of the paths list. -/
def flipPaths (svgHeight : ℚ) (paths : List SvgPath) : List SvgPath :=
  paths.map (fun p => p.map (flipSeg svgHeight))

/-- Finite value of the scanned (pre-flip) bounding box's longest side:
max(max_x - min_x, max_y - min_y) over all segment endpoints, meaningful
for a nonempty scene (currentLongestSideX carries the sentinel case). -/
def currentLongestSide (paths : List SvgPath) : ℚ :=
  ptsLongestSide (endpointList paths)

/-- current_longest_side (src/svg_to_gcode.py line 203) at float level:
max(max_x - min_x, max_y - min_y) over the sentinel-seeded scans.  For
an empty scene both differences are (-inf) - inf = -inf, so the value
is -inf. -/
def currentLongestSideX (paths : List SvgPath) : XFloat :=
  XFloat.fmax
    (XFloat.fsub (scanMax ((endpointList paths).map Prod.fst))
      (scanMin ((endpointList paths).map Prod.fst)))
    (XFloat.fsub (scanMax ((endpointList paths).map Prod.snd))
      (scanMin ((endpointList paths).map Prod.snd)))

/-- Result of calculate_scaling_factor_and_transform.  The Python function
returns (scale_factor, min_x, svg_height) and mutates paths in place;
the post-state of paths is modelled as the flipped field. -/
structure TransformResult where
  scaleFactor : ℚ
  minX : ℚ
  svgHeight : ℚ
  flipped : List SvgPath
deriving DecidableEq, Repr

/-- calculate_scaling_factor_and_transform (src/svg_to_gcode.py lines
170-208): extract the height, scan the bounding box, flip every point
vertically in place, then scale = 1 when no target is given, else
target / current_longest_side: a finite zero longest side raises
ZeroDivisionError, while an infinite one (the empty scan, -inf) makes
the division yield -0.0, the exact value 0, without failing.  For an
empty scene the source's min_x is the surviving float("inf") sentinel;
no segment exists to consume it, the minX field then stores minOver's
finite default, and no theorem constrains minX for an empty scene. -/
def calculateScalingFactorAndTransform (paths : List SvgPath)
    (svgAttributes : SvgAttributes) (targetLongestSide : Option ℚ) :
    Except PyError TransformResult :=
  match extractSvgHeight svgAttributes with
  | .error e => .error e
  | .ok svgHeight =>
    let minX := ptsMinX (endpointList paths)
    let flipped := flipPaths svgHeight paths
    let current := currentLongestSideX paths
    match targetLongestSide with
    | none => .ok ⟨1, minX, svgHeight, flipped⟩
    | some t =>
      match current with
      | .fin c =>
        if c = 0 then .error .zeroDivisionError
        else .ok ⟨t / c, minX, svgHeight, flipped⟩
      | .negInf => .ok ⟨0, minX, svgHeight, flipped⟩
      | .posInf => .ok ⟨0, minX, svgHeight, flipped⟩

/-- path_to_gcode (src/svg_to_gcode.py lines 211-226): for every segment,
rapid to the transformed start, laser on, one linear move to the
transformed end, laser off. -/
def pathToGcode (path : SvgPath) (scaleFactor minX offsetX offsetY : ℚ)
    (feedRate power : ℤ) : List Instr :=
  path.flatMap (fun segment =>
    [ .rapidMove ((segment.start.1 - minX) * scaleFactor + offsetX)
        (segment.start.2 * scaleFactor + offsetY),
      .laserOn power,
      .linearMove ((segment.stop.1 - minX) * scaleFactor + offsetX)
        (segment.stop.2 * scaleFactor + offsetY) feedRate,
      .laserOff ])

/-- Offset X of svg_to_gcode (src/svg_to_gcode.py lines 248-255):
center_offset_x minus (min_x + scaled_width / 2), where the code sets
scaled_width = (svg_height - min_x) * scale_factor. -/
def svgOffsetX (r : TransformResult) (centerOffsetX : ℚ) : ℚ :=
  let scaledWidth := (r.svgHeight - r.minX) * r.scaleFactor
  let centerX := r.minX + scaledWidth / 2
  centerOffsetX - centerX

/-- Offset Y of svg_to_gcode (src/svg_to_gcode.py lines 250-256):
center_offset_y minus scaled_height / 2, where the code sets
scaled_height = svg_height * scale_factor. -/
def svgOffsetY (r : TransformResult) (centerOffsetY : ℚ) : ℚ :=
  let scaledHeight := r.svgHeight * r.scaleFactor
  let centerY := scaledHeight / 2
  centerOffsetY - centerY

/-- svg_to_gcode (src/svg_to_gcode.py lines 229-271), instruction level:
the per-curve instruction stream written between the setup lines and the
final home line.  A missing center_offset means (0, 0); the loop runs
over the flipped (mutated) paths. -/
def svgToGcodeInstrs (paths : List SvgPath) (svgAttributes : SvgAttributes)
    (power feedRate : ℤ) (longestSide : Option ℚ)
    (centerOffset : Option (ℚ × ℚ)) : Except PyError (List Instr) :=
  let co := centerOffset.getD (0, 0)
  match calculateScalingFactorAndTransform paths svgAttributes longestSide with
  | .error e => .error e
  | .ok r =>
    .ok (r.flipped.flatMap (fun p =>
      pathToGcode p r.scaleFactor r.minX (svgOffsetX r co.1) (svgOffsetY r co.2)
        feedRate power))

/-! ### image_to_gcode.py -/

/-- Scale-and-offset applied to one contour point
(src/image_to_gcode.py lines 28-30). -/
def transformPoint (scaleFactor offsetX offsetY : ℚ) (p : ℚ × ℚ) : ℚ × ℚ :=
  (p.1 * scaleFactor + offsetX, p.2 * scaleFactor + offsetY)

/-- Instructions for one contour (src/image_to_gcode.py lines 26-38):
rapid to the transformed first point then laser on, a linear move for
every subsequent point, and one laser off after the contour (written
even for an empty contour, as in the source loop). -/
def contourToGcode (scaleFactor offsetX offsetY : ℚ) (power feedRate : ℤ)
    (contour : List (ℚ × ℚ)) : List Instr :=
  (match contour with
   | [] => []
   | p :: rest =>
     .rapidMove (transformPoint scaleFactor offsetX offsetY p).1
         (transformPoint scaleFactor offsetX offsetY p).2 ::
       .laserOn power ::
       rest.map (fun q =>
         .linearMove (transformPoint scaleFactor offsetX offsetY q).1
           (transformPoint scaleFactor offsetX offsetY q).2 feedRate))
    ++ [.laserOff]

/-- generate_gcode (src/image_to_gcode.py lines 6-41), instruction level:
the per-contour stream written between the setup lines and the final
home line. -/
def generateGcode (contours : List (List (ℚ × ℚ))) (power feedRate : ℤ)
    (scaleFactor offsetX offsetY : ℚ) : List Instr :=
  contours.flatMap (contourToGcode scaleFactor offsetX offsetY power feedRate)

/-- max(img.shape) (src/image_to_gcode.py line 101): the maximum over the
loaded image's shape tuple, which for a colour image includes the
channel count. -/
def maxShape (shape : List ℕ) : ℚ :=
  maxOver (shape.map (fun n => (n : ℚ)))

/-- Scale factor of image_to_gcode (src/image_to_gcode.py lines 99-102):
1 unless longest_side is truthy (present and nonzero), in which case
longest_side / max(img.shape). -/
def imageScaleFactor (shape : List ℕ) (longestSide : Option ℚ) : ℚ :=
  match longestSide with
  | none => 1
  | some t => if t = 0 then 1 else t / maxShape shape

/-- Offset of image_to_gcode (src/image_to_gcode.py lines 104-106): the
center_offset pair itself when given (a pair is always truthy), else
(0, 0). -/
def imageOffset (centerOffset : Option (ℚ × ℚ)) : ℚ × ℚ :=
  centerOffset.getD (0, 0)

/-- image_to_gcode (src/image_to_gcode.py lines 46-110), instruction
level, taking the detected contours and the loaded image's shape tuple
as the adapter boundary. -/
def imageToGcodeInstrs (contours : List (List (ℚ × ℚ))) (shape : List ℕ)
    (power feedRate : ℤ) (longestSide : Option ℚ)
    (centerOffset : Option (ℚ × ℚ)) : List Instr :=
  let s := imageScaleFactor shape longestSide
  let o := imageOffset centerOffset
  generateGcode contours power feedRate s o.1 o.2

/-! ### Serialization -/

/-- Exactly three decimal digit characters of n mod 1000, most
significant first. -/
def pad3 (n : ℕ) : String :=
  String.mk [Nat.digitChar (n / 100 % 10), Nat.digitChar (n / 10 % 10),
    Nat.digitChar (n % 10)]

/-- Python fixed-point formatting with three decimals, on exact inputs:
the sign, the integer part, a point, and exactly three fractional
digits.  Ties round half away from zero in magnitude here; no claim
exercises a tie. -/
def fmt3 (q : ℚ) : String :=
  let m : ℤ := round (q * 1000)
  let sign := if q < 0 then "-" else ""
  sign ++ (m.natAbs / 1000).repr ++ "." ++ pad3 (m.natAbs % 1000)

/-- One output line per instruction, svg converter texts
(src/svg_to_gcode.py lines 220-225). -/
def serializeInstrSvg : Instr → String
  | .rapidMove x y => "G0 X" ++ fmt3 x ++ " Y" ++ fmt3 y
  | .laserOn p => "M3 S" ++ toString p
  | .linearMove x y f => "G1 X" ++ fmt3 x ++ " Y" ++ fmt3 y ++ " F" ++ toString f
  | .laserOff => "M5"

/-- One output line per instruction, raster converter texts
(src/image_to_gcode.py lines 33-38). -/
def serializeInstrImage : Instr → String
  | .rapidMove x y => "G0 X" ++ fmt3 x ++ " Y" ++ fmt3 y
  | .laserOn p => "M3 S" ++ toString p
  | .linearMove x y f => "G1 X" ++ fmt3 x ++ " Y" ++ fmt3 y ++ " F" ++ toString f
  | .laserOff => "M5 ; Turn off the laser"

/-- Setup lines of svg_to_gcode (src/svg_to_gcode.py lines 259-261). -/
def svgSetupLines : List String :=
  ["G21 ; Set units to millimeters", "G90 ; Absolute positioning",
    "M5 ; Start with laser off"]

/-- Setup lines of generate_gcode (src/image_to_gcode.py lines 22-24). -/
def imageSetupLines : List String :=
  ["G21 ; Set units to millimeters", "G90 ; Absolute positioning",
    "M5 ; Ensure the laser is off to start"]

/-- The final home line, written literally by both converters
(src/image_to_gcode.py line 41, src/svg_to_gcode.py line 269). -/
def homeLine : String := "G0 X0 Y0"

/-- Full output of the svg converter as a list of lines. -/
def svgOutputLines (instrs : List Instr) : List String :=
  svgSetupLines ++ instrs.map serializeInstrSvg ++ [homeLine]

/-- Full output of the raster converter as a list of lines. -/
def imageOutputLines (instrs : List Instr) : List String :=
  imageSetupLines ++ instrs.map serializeInstrImage ++ [homeLine]

/-! ### Observation helpers -/

/-- The coordinates targeted by the motion instructions of a stream, in
order: the transformed geometry the machine visits. -/
def instrPoints (l : List Instr) : List (ℚ × ℚ) :=
  l.flatMap (fun i =>
    match i with
    | .rapidMove x y => [(x, y)]
    | .linearMove x y _ => [(x, y)]
    | _ => [])

/-- Whether an instruction is a laser-off command. -/
def isLaserOff : Instr → Bool
  | .laserOff => true
  | _ => false

/-- Whether an instruction is a linear move. -/
def isLinear : Instr → Bool
  | .linearMove _ _ _ => true
  | _ => false

/-- Count of laser-off commands in a stream. -/
def countLaserOff (l : List Instr) : ℕ := l.countP isLaserOff

/-- X-coordinate projection of every segment of every path, used to state
that the in-place flip leaves X coordinates unchanged. -/
def xProj (paths : List SvgPath) : List (List (ℚ × ℚ)) :=
  paths.map (List.map (fun s => (s.start.1, s.stop.1)))

/-! ### Fold lemmas for the bounding-box scan -/

lemma foldl_min_le_init : ∀ (l : List ℚ) (x : ℚ), l.foldl min x ≤ x := by
  intro l
  induction l with
  | nil => intro x; exact le_refl x
  | cons y ys ih =>
    intro x
    calc (y :: ys).foldl min x = ys.foldl min (min x y) := rfl
    _ ≤ min x y := ih (min x y)
    _ ≤ x := min_le_left x y

lemma le_foldl_max_init : ∀ (l : List ℚ) (x : ℚ), x ≤ l.foldl max x := by
  intro l
  induction l with
  | nil => intro x; exact le_refl x
  | cons y ys ih =>
    intro x
    calc x ≤ max x y := le_max_left x y
    _ ≤ ys.foldl max (max x y) := ih (max x y)
    _ = (y :: ys).foldl max x := rfl

lemma minOver_le_maxOver (l : List ℚ) (h : l ≠ []) : minOver l ≤ maxOver l := by
  match l with
  | [] => exact absurd rfl h
  | x :: xs =>
    calc minOver (x :: xs) = xs.foldl min x := rfl
    _ ≤ x := foldl_min_le_init xs x
    _ ≤ xs.foldl max x := le_foldl_max_init xs x
    _ = maxOver (x :: xs) := rfl

lemma foldl_min_affine (a b : ℚ) (ha : 0 ≤ a) :
    ∀ (l : List ℚ) (x : ℚ),
      (l.map (fun z => z * a + b)).foldl min (x * a + b) = l.foldl min x * a + b := by
  intro l
  induction l with
  | nil => intro x; rfl
  | cons y ys ih =>
    intro x
    simp only [List.map_cons, List.foldl_cons]
    rw [← ih (min x y)]
    congr 1
    rw [min_mul_of_nonneg _ _ ha, min_add_add_right]

lemma foldl_max_affine (a b : ℚ) (ha : 0 ≤ a) :
    ∀ (l : List ℚ) (x : ℚ),
      (l.map (fun z => z * a + b)).foldl max (x * a + b) = l.foldl max x * a + b := by
  intro l
  induction l with
  | nil => intro x; rfl
  | cons y ys ih =>
    intro x
    simp only [List.map_cons, List.foldl_cons]
    rw [← ih (max x y)]
    congr 1
    rw [max_mul_of_nonneg _ _ ha, max_add_add_right]

lemma foldl_min_flip (h : ℚ) :
    ∀ (l : List ℚ) (x : ℚ),
      (l.map (fun z => h - z)).foldl min (h - x) = h - l.foldl max x := by
  intro l
  induction l with
  | nil => intro x; rfl
  | cons y ys ih =>
    intro x
    simp only [List.map_cons, List.foldl_cons]
    rw [← ih (max x y)]
    congr 1
    exact min_sub_sub_left h x y

lemma foldl_max_flip (h : ℚ) :
    ∀ (l : List ℚ) (x : ℚ),
      (l.map (fun z => h - z)).foldl max (h - x) = h - l.foldl min x := by
  intro l
  induction l with
  | nil => intro x; rfl
  | cons y ys ih =>
    intro x
    simp only [List.map_cons, List.foldl_cons]
    rw [← ih (min x y)]
    congr 1
    exact max_sub_sub_left h x y

lemma minOver_map_affine (a b : ℚ) (ha : 0 ≤ a) (l : List ℚ) (hl : l ≠ []) :
    minOver (l.map (fun z => z * a + b)) = minOver l * a + b := by
  match l with
  | [] => exact absurd rfl hl
  | x :: xs =>
    simp only [List.map_cons, minOver]
    exact foldl_min_affine a b ha xs x

lemma maxOver_map_affine (a b : ℚ) (ha : 0 ≤ a) (l : List ℚ) (hl : l ≠ []) :
    maxOver (l.map (fun z => z * a + b)) = maxOver l * a + b := by
  match l with
  | [] => exact absurd rfl hl
  | x :: xs =>
    simp only [List.map_cons, maxOver]
    exact foldl_max_affine a b ha xs x

lemma minOver_map_flip (h : ℚ) (l : List ℚ) (hl : l ≠ []) :
    minOver (l.map (fun z => h - z)) = h - maxOver l := by
  match l with
  | [] => exact absurd rfl hl
  | x :: xs =>
    simp only [List.map_cons, minOver, maxOver]
    exact foldl_min_flip h xs x

lemma maxOver_map_flip (h : ℚ) (l : List ℚ) (hl : l ≠ []) :
    maxOver (l.map (fun z => h - z)) = h - minOver l := by
  match l with
  | [] => exact absurd rfl hl
  | x :: xs =>
    simp only [List.map_cons, maxOver, minOver]
    exact foldl_max_flip h xs x

/-! ### Point-list bounding-box lemmas -/

lemma ptsMinX_map_affine (a bx by' : ℚ) (ha : 0 ≤ a) (pts : List (ℚ × ℚ))
    (hne : pts ≠ []) :
    ptsMinX (pts.map (fun p => (p.1 * a + bx, p.2 * a + by'))) =
      ptsMinX pts * a + bx := by
  have hmap : (pts.map (fun p => (p.1 * a + bx, p.2 * a + by'))).map Prod.fst
      = (pts.map Prod.fst).map (fun z => z * a + bx) := by
    simp [List.map_map, Function.comp]
  have hne' : pts.map Prod.fst ≠ [] := by
    simpa using hne
  simp only [ptsMinX, hmap]
  exact minOver_map_affine a bx ha _ hne'

lemma ptsMaxX_map_affine (a bx by' : ℚ) (ha : 0 ≤ a) (pts : List (ℚ × ℚ))
    (hne : pts ≠ []) :
    ptsMaxX (pts.map (fun p => (p.1 * a + bx, p.2 * a + by'))) =
      ptsMaxX pts * a + bx := by
  have hmap : (pts.map (fun p => (p.1 * a + bx, p.2 * a + by'))).map Prod.fst
      = (pts.map Prod.fst).map (fun z => z * a + bx) := by
    simp [List.map_map, Function.comp]
  have hne' : pts.map Prod.fst ≠ [] := by
    simpa using hne
  simp only [ptsMaxX, hmap]
  exact maxOver_map_affine a bx ha _ hne'

lemma ptsMinY_map_affine (a bx by' : ℚ) (ha : 0 ≤ a) (pts : List (ℚ × ℚ))
    (hne : pts ≠ []) :
    ptsMinY (pts.map (fun p => (p.1 * a + bx, p.2 * a + by'))) =
      ptsMinY pts * a + by' := by
  have hmap : (pts.map (fun p => (p.1 * a + bx, p.2 * a + by'))).map Prod.snd
      = (pts.map Prod.snd).map (fun z => z * a + by') := by
    simp [List.map_map, Function.comp]
  have hne' : pts.map Prod.snd ≠ [] := by
    simpa using hne
  simp only [ptsMinY, hmap]
  exact minOver_map_affine a by' ha _ hne'

lemma ptsMaxY_map_affine (a bx by' : ℚ) (ha : 0 ≤ a) (pts : List (ℚ × ℚ))
    (hne : pts ≠ []) :
    ptsMaxY (pts.map (fun p => (p.1 * a + bx, p.2 * a + by'))) =
      ptsMaxY pts * a + by' := by
  have hmap : (pts.map (fun p => (p.1 * a + bx, p.2 * a + by'))).map Prod.snd
      = (pts.map Prod.snd).map (fun z => z * a + by') := by
    simp [List.map_map, Function.comp]
  have hne' : pts.map Prod.snd ≠ [] := by
    simpa using hne
  simp only [ptsMaxY, hmap]
  exact maxOver_map_affine a by' ha _ hne'

lemma ptsLongestSide_map_affine (a bx by' : ℚ) (ha : 0 ≤ a)
    (pts : List (ℚ × ℚ)) (hne : pts ≠ []) :
    ptsLongestSide (pts.map (fun p => (p.1 * a + bx, p.2 * a + by'))) =
      ptsLongestSide pts * a := by
  simp only [ptsLongestSide, ptsMinX_map_affine a bx by' ha pts hne,
    ptsMaxX_map_affine a bx by' ha pts hne, ptsMinY_map_affine a bx by' ha pts hne,
    ptsMaxY_map_affine a bx by' ha pts hne]
  rw [max_mul_of_nonneg _ _ ha]
  congr 1 <;> ring

lemma ptsCenter_map_affine (a bx by' : ℚ) (ha : 0 ≤ a)
    (pts : List (ℚ × ℚ)) (hne : pts ≠ []) :
    ptsCenter (pts.map (fun p => (p.1 * a + bx, p.2 * a + by'))) =
      ((ptsCenter pts).1 * a + bx, (ptsCenter pts).2 * a + by') := by
  simp only [ptsCenter, ptsMinX_map_affine a bx by' ha pts hne,
    ptsMaxX_map_affine a bx by' ha pts hne, ptsMinY_map_affine a bx by' ha pts hne,
    ptsMaxY_map_affine a bx by' ha pts hne]
  simp only [Prod.mk.injEq]
  constructor <;> ring

lemma ptsMinX_map_flip (h : ℚ) (pts : List (ℚ × ℚ)) :
    ptsMinX (pts.map (fun p => (p.1, h - p.2))) = ptsMinX pts := by
  have hmap : (pts.map (fun p => ((p.1 : ℚ), h - p.2))).map Prod.fst
      = pts.map Prod.fst := by
    simp [List.map_map, Function.comp]
  simp only [ptsMinX, hmap]

lemma ptsMaxX_map_flip (h : ℚ) (pts : List (ℚ × ℚ)) :
    ptsMaxX (pts.map (fun p => (p.1, h - p.2))) = ptsMaxX pts := by
  have hmap : (pts.map (fun p => ((p.1 : ℚ), h - p.2))).map Prod.fst
      = pts.map Prod.fst := by
    simp [List.map_map, Function.comp]
  simp only [ptsMaxX, hmap]

lemma ptsMinY_map_flip (h : ℚ) (pts : List (ℚ × ℚ)) (hne : pts ≠ []) :
    ptsMinY (pts.map (fun p => (p.1, h - p.2))) = h - ptsMaxY pts := by
  have hmap : (pts.map (fun p => ((p.1 : ℚ), h - p.2))).map Prod.snd
      = (pts.map Prod.snd).map (fun z => h - z) := by
    simp [List.map_map, Function.comp]
  have hne' : pts.map Prod.snd ≠ [] := by
    simpa using hne
  simp only [ptsMinY, ptsMaxY, hmap]
  exact minOver_map_flip h _ hne'

lemma ptsMaxY_map_flip (h : ℚ) (pts : List (ℚ × ℚ)) (hne : pts ≠ []) :
    ptsMaxY (pts.map (fun p => (p.1, h - p.2))) = h - ptsMinY pts := by
  have hmap : (pts.map (fun p => ((p.1 : ℚ), h - p.2))).map Prod.snd
      = (pts.map Prod.snd).map (fun z => h - z) := by
    simp [List.map_map, Function.comp]
  have hne' : pts.map Prod.snd ≠ [] := by
    simpa using hne
  simp only [ptsMaxY, ptsMinY, hmap]
  exact maxOver_map_flip h _ hne'

lemma ptsLongestSide_map_flip (h : ℚ) (pts : List (ℚ × ℚ)) (hne : pts ≠ []) :
    ptsLongestSide (pts.map (fun p => (p.1, h - p.2))) = ptsLongestSide pts := by
  simp only [ptsLongestSide, ptsMinX_map_flip, ptsMaxX_map_flip,
    ptsMinY_map_flip h pts hne, ptsMaxY_map_flip h pts hne]
  congr 1
  ring

lemma ptsCenter_map_flip (h : ℚ) (pts : List (ℚ × ℚ)) (hne : pts ≠ []) :
    ptsCenter (pts.map (fun p => (p.1, h - p.2))) =
      ((ptsCenter pts).1, h - (ptsCenter pts).2) := by
  simp only [ptsCenter, ptsMinX_map_flip, ptsMaxX_map_flip,
    ptsMinY_map_flip h pts hne, ptsMaxY_map_flip h pts hne]
  simp only [Prod.mk.injEq, true_and]
  ring

/-! ### Structure lemmas for the emitters -/

lemma instrPoints_append (l₁ l₂ : List Instr) :
    instrPoints (l₁ ++ l₂) = instrPoints l₁ ++ instrPoints l₂ := by
  simp [instrPoints]

lemma instrPoints_pathToGcode (path : SvgPath) (s mnx ox oy : ℚ) (f p : ℤ) :
    instrPoints (pathToGcode path s mnx ox oy f p) =
      (path.flatMap (fun seg => [seg.start, seg.stop])).map
        (fun q => ((q.1 - mnx) * s + ox, q.2 * s + oy)) := by
  induction path with
  | nil => rfl
  | cons seg segs ih =>
    simp only [pathToGcode, List.flatMap_cons, List.map_append] at *
    rw [instrPoints_append, ih]
    rfl

lemma instrPoints_cons_rapid (x y : ℚ) (l : List Instr) :
    instrPoints (.rapidMove x y :: l) = (x, y) :: instrPoints l := rfl

lemma instrPoints_cons_on (p : ℤ) (l : List Instr) :
    instrPoints (.laserOn p :: l) = instrPoints l := rfl

lemma instrPoints_cons_lin (x y : ℚ) (f : ℤ) (l : List Instr) :
    instrPoints (.linearMove x y f :: l) = (x, y) :: instrPoints l := rfl

lemma instrPoints_contourToGcode (s ox oy : ℚ) (p f : ℤ) (c : List (ℚ × ℚ)) :
    instrPoints (contourToGcode s ox oy p f c) = c.map (transformPoint s ox oy) := by
  match c with
  | [] => rfl
  | q :: rest =>
    have hrest : ∀ l : List (ℚ × ℚ),
        instrPoints (l.map (fun q =>
          Instr.linearMove (transformPoint s ox oy q).1
            (transformPoint s ox oy q).2 f)) = l.map (transformPoint s ox oy) := by
      intro l
      induction l with
      | nil => rfl
      | cons a as ih =>
        rw [List.map_cons, instrPoints_cons_lin, ih, List.map_cons]
    simp only [contourToGcode, List.map_cons]
    rw [instrPoints_append, instrPoints_cons_rapid, instrPoints_cons_on, hrest rest]
    simp [instrPoints]

lemma instrPoints_generateGcode (contours : List (List (ℚ × ℚ)))
    (p f : ℤ) (s ox oy : ℚ) :
    instrPoints (generateGcode contours p f s ox oy) =
      contours.flatten.map (transformPoint s ox oy) := by
  induction contours with
  | nil => rfl
  | cons c cs ih =>
    simp only [generateGcode, List.flatMap_cons, List.flatten_cons, List.map_append] at *
    rw [instrPoints_append, ih, instrPoints_contourToGcode]

lemma endpointList_flipPaths (h : ℚ) (paths : List SvgPath) :
    endpointList (flipPaths h paths) =
      (endpointList paths).map (fun q => (q.1, h - q.2)) := by
  simp only [endpointList, flipPaths, List.flatMap_map, List.map_flatMap]
  congr 1

lemma endpointList_ne_nil_of_flip (h : ℚ) (paths : List SvgPath)
    (hne : endpointList paths ≠ []) : endpointList (flipPaths h paths) ≠ [] := by
  rw [endpointList_flipPaths]
  simpa using hne

lemma scanMin_foldl_fin (xs : List ℚ) : ∀ a : ℚ,
    xs.foldl (fun acc x => XFloat.fmin acc (.fin x)) (.fin a)
      = .fin (xs.foldl min a) := by
  induction xs with
  | nil => intro a; rfl
  | cons y ys ih =>
    intro a
    simp only [List.foldl_cons]
    have hstep : XFloat.fmin (.fin a) (.fin y) = .fin (min a y) := rfl
    rw [hstep, ih (min a y)]

lemma scanMax_foldl_fin (xs : List ℚ) : ∀ a : ℚ,
    xs.foldl (fun acc x => XFloat.fmax acc (.fin x)) (.fin a)
      = .fin (xs.foldl max a) := by
  induction xs with
  | nil => intro a; rfl
  | cons y ys ih =>
    intro a
    simp only [List.foldl_cons]
    have hstep : XFloat.fmax (.fin a) (.fin y) = .fin (max a y) := rfl
    rw [hstep, ih (max a y)]

/-- On a nonempty scan the sentinel is overwritten by the first element
and the scan's value is finite: the minOver fold. -/
lemma scanMin_fin (l : List ℚ) (hl : l ≠ []) : scanMin l = .fin (minOver l) := by
  match l with
  | [] => exact absurd rfl hl
  | x :: xs =>
    simp only [scanMin, List.foldl_cons, minOver]
    have hstep : XFloat.fmin .posInf (.fin x) = .fin x := rfl
    rw [hstep, scanMin_foldl_fin xs x]

/-- On a nonempty scan the scan's maximum is finite: the maxOver fold. -/
lemma scanMax_fin (l : List ℚ) (hl : l ≠ []) : scanMax l = .fin (maxOver l) := by
  match l with
  | [] => exact absurd rfl hl
  | x :: xs =>
    simp only [scanMax, List.foldl_cons, maxOver]
    have hstep : XFloat.fmax .negInf (.fin x) = .fin x := rfl
    rw [hstep, scanMax_foldl_fin xs x]

/-- For a nonempty scene the float-level longest side is the finite
currentLongestSide. -/
lemma currentLongestSideX_fin (paths : List SvgPath)
    (h : endpointList paths ≠ []) :
    currentLongestSideX paths = .fin (currentLongestSide paths) := by
  have hx : (endpointList paths).map Prod.fst ≠ [] := by simpa using h
  have hy : (endpointList paths).map Prod.snd ≠ [] := by simpa using h
  rw [currentLongestSideX, scanMin_fin _ hx, scanMax_fin _ hx,
    scanMin_fin _ hy, scanMax_fin _ hy]
  simp [XFloat.fsub, XFloat.fmax, currentLongestSide, ptsLongestSide,
    ptsMinX, ptsMaxX, ptsMinY, ptsMaxY]

/-- For an empty scene the sentinels survive and the float-level longest
side is -inf. -/
lemma currentLongestSideX_nil (paths : List SvgPath)
    (h : endpointList paths = []) : currentLongestSideX paths = .negInf := by
  rw [currentLongestSideX, h]
  rfl

lemma currentLongestSideX_spec (paths : List SvgPath) :
    (endpointList paths ≠ []
      ∧ currentLongestSideX paths = .fin (currentLongestSide paths))
    ∨ (endpointList paths = [] ∧ currentLongestSideX paths = .negInf) := by
  by_cases h : endpointList paths = []
  · exact Or.inr ⟨h, currentLongestSideX_nil paths h⟩
  · exact Or.inl ⟨h, currentLongestSideX_fin paths h⟩

/-- Inversion of a successful calculate_scaling_factor_and_transform run. -/
lemma calc_inv {paths : List SvgPath} {attrs : SvgAttributes} {ls : Option ℚ}
    {r : TransformResult}
    (hr : calculateScalingFactorAndTransform paths attrs ls = .ok r) :
    extractSvgHeight attrs = .ok r.svgHeight
    ∧ r.minX = ptsMinX (endpointList paths)
    ∧ r.flipped = flipPaths r.svgHeight paths
    ∧ ((ls = none ∧ r.scaleFactor = 1)
       ∨ (∃ t, ls = some t ∧ endpointList paths ≠ []
           ∧ currentLongestSide paths ≠ 0
           ∧ r.scaleFactor = t / currentLongestSide paths)
       ∨ (∃ t, ls = some t ∧ endpointList paths = [] ∧ r.scaleFactor = 0)) := by
  unfold calculateScalingFactorAndTransform at hr
  cases hh : extractSvgHeight attrs with
  | error e =>
    rw [hh] at hr
    exact Except.noConfusion
      (show (Except.error e : Except PyError TransformResult) = .ok r from hr)
  | ok hgt =>
    rw [hh] at hr
    cases ls with
    | none =>
      have hr' : Except.ok (⟨1, ptsMinX (endpointList paths), hgt,
          flipPaths hgt paths⟩ : TransformResult) = .ok r := hr
      injection hr' with h2
      subst h2
      exact ⟨rfl, rfl, rfl, Or.inl ⟨rfl, rfl⟩⟩
    | some t =>
      have hr' : (match currentLongestSideX paths with
          | .fin c =>
            if c = 0 then
              (Except.error PyError.zeroDivisionError : Except PyError TransformResult)
            else .ok ⟨t / c, ptsMinX (endpointList paths), hgt, flipPaths hgt paths⟩
          | .negInf => .ok ⟨0, ptsMinX (endpointList paths), hgt, flipPaths hgt paths⟩
          | .posInf => .ok ⟨0, ptsMinX (endpointList paths), hgt, flipPaths hgt paths⟩)
          = .ok r := hr
      rcases currentLongestSideX_spec paths with ⟨hne, hX⟩ | ⟨hnil, hX⟩
      · rw [hX] at hr'
        have hr2 : (if currentLongestSide paths = 0 then
              (Except.error PyError.zeroDivisionError : Except PyError TransformResult)
            else .ok ⟨t / currentLongestSide paths, ptsMinX (endpointList paths), hgt,
              flipPaths hgt paths⟩) = .ok r := hr'
        by_cases hz : currentLongestSide paths = 0
        · rw [if_pos hz] at hr2
          exact Except.noConfusion hr2
        · rw [if_neg hz] at hr2
          injection hr2 with h2
          subst h2
          exact ⟨rfl, rfl, rfl, Or.inr (Or.inl ⟨t, rfl, hne, hz, rfl⟩)⟩
      · rw [hX] at hr'
        have hr2 : Except.ok (⟨0, ptsMinX (endpointList paths), hgt,
            flipPaths hgt paths⟩ : TransformResult) = .ok r := hr'
        injection hr2 with h2
        subst h2
        exact ⟨rfl, rfl, rfl, Or.inr (Or.inr ⟨t, rfl, hnil, rfl⟩)⟩

/-- Shape of a successful svg_to_gcode run. -/
lemma svgToGcodeInstrs_ok {paths : List SvgPath} {attrs : SvgAttributes}
    {pw f : ℤ} {ls : Option ℚ} {co : Option (ℚ × ℚ)} {r : TransformResult}
    (hr : calculateScalingFactorAndTransform paths attrs ls = .ok r) :
    svgToGcodeInstrs paths attrs pw f ls co =
      .ok (r.flipped.flatMap (fun p =>
        pathToGcode p r.scaleFactor r.minX (svgOffsetX r (co.getD (0, 0)).1)
          (svgOffsetY r (co.getD (0, 0)).2) f pw)) := by
  unfold svgToGcodeInstrs
  rw [hr]

/-- The motion targets of a successful svg_to_gcode run: every scanned
endpoint, flipped, then scaled and offset. -/
lemma instrPoints_svg_run {paths : List SvgPath} {attrs : SvgAttributes}
    {pw f : ℤ} {ls : Option ℚ} {co : Option (ℚ × ℚ)} {r : TransformResult}
    {instrs : List Instr}
    (hr : calculateScalingFactorAndTransform paths attrs ls = .ok r)
    (hi : svgToGcodeInstrs paths attrs pw f ls co = .ok instrs) :
    instrPoints instrs =
      ((endpointList paths).map (fun q => (q.1, r.svgHeight - q.2))).map
        (fun q => ((q.1 - r.minX) * r.scaleFactor + svgOffsetX r (co.getD (0, 0)).1,
          q.2 * r.scaleFactor + svgOffsetY r (co.getD (0, 0)).2)) := by
  rw [svgToGcodeInstrs_ok hr] at hi
  simp only [Except.ok.injEq] at hi
  subst hi
  obtain ⟨-, -, hflip, -⟩ := calc_inv hr
  rw [← endpointList_flipPaths, ← hflip]
  have hgen : ∀ (L : List SvgPath) (s mnx ox oy : ℚ) (f' p' : ℤ),
      instrPoints (L.flatMap (fun p => pathToGcode p s mnx ox oy f' p')) =
        (L.flatMap (fun p => p.flatMap (fun seg => [seg.start, seg.stop]))).map
          (fun q => ((q.1 - mnx) * s + ox, q.2 * s + oy)) := by
    intro L s mnx ox oy f' p'
    induction L with
    | nil => rfl
    | cons p ps ih =>
      simp only [List.flatMap_cons, List.map_append]
      rw [instrPoints_append, ih, instrPoints_pathToGcode]
  exact hgen r.flipped r.scaleFactor r.minX _ _ f pw

/-! ### Further shared helpers -/

lemma flipSeg_flipSeg (h : ℚ) (s : Segment) : flipSeg h (flipSeg h s) = s := by
  obtain ⟨k, ⟨sx, sy⟩, ⟨tx, ty⟩⟩ := s
  simp [flipSeg]

lemma flipPaths_flipPaths (h : ℚ) (paths : List SvgPath) :
    flipPaths h (flipPaths h paths) = paths := by
  unfold flipPaths
  rw [List.map_map]
  have hcomp : (fun p : SvgPath => p.map (flipSeg h)) ∘
      (fun p : SvgPath => p.map (flipSeg h)) =
      fun p : SvgPath => p.map (flipSeg h ∘ flipSeg h) := by
    funext p
    simp [List.map_map]
  rw [hcomp]
  have hid : flipSeg h ∘ flipSeg h = id := by
    funext sg
    simp [Function.comp, flipSeg_flipSeg]
  rw [hid]
  simp

lemma xProj_flipPaths (h : ℚ) (paths : List SvgPath) :
    xProj (flipPaths h paths) = xProj paths := by
  simp [xProj, flipPaths, List.map_map, Function.comp, flipSeg]

lemma ptsLongestSide_nonneg (pts : List (ℚ × ℚ)) (hne : pts ≠ []) :
    0 ≤ ptsLongestSide pts := by
  have hx : ptsMinX pts ≤ ptsMaxX pts := by
    apply minOver_le_maxOver
    simpa using hne
  calc (0 : ℚ) ≤ ptsMaxX pts - ptsMinX pts := by linarith
  _ ≤ ptsLongestSide pts := le_max_left _ _

lemma countLaserOff_contourToGcode (s ox oy : ℚ) (p f : ℤ)
    (c : List (ℚ × ℚ)) : countLaserOff (contourToGcode s ox oy p f c) = 1 := by
  match c with
  | [] => rfl
  | q :: rest =>
    simp only [countLaserOff, contourToGcode, List.countP_append, List.countP_cons,
      isLaserOff]
    have : List.countP isLaserOff (rest.map (fun q =>
        Instr.linearMove (transformPoint s ox oy q).1
          (transformPoint s ox oy q).2 f)) = 0 := by
      apply List.countP_eq_zero.mpr
      intro a ha
      obtain ⟨b, -, rfl⟩ := List.mem_map.mp ha
      simp [isLaserOff]
    simp [this, isLaserOff]

lemma length_contourToGcode (s ox oy : ℚ) (p f : ℤ) (c : List (ℚ × ℚ))
    (hc : c ≠ []) : (contourToGcode s ox oy p f c).length = c.length + 2 := by
  match c with
  | [] => exact absurd rfl hc
  | q :: rest => simp [contourToGcode]

/-! ### Claim theorems -/

/-- C5 counterexample: an empty scene with a requested target does not
fail: the infinity sentinels survive the empty scan,
current_longest_side is -inf, the division yields scale -0.0 (the exact
value 0) and a transform is produced; the whole conversion completes
with an empty instruction stream instead of raising. -/
theorem empty_scene_transform_cex :
    currentLongestSideX [] = XFloat.negInf
    ∧ (calculateScalingFactorAndTransform [] ⟨some (0, 0, 5, 5), none⟩
        (some 7)).map TransformResult.scaleFactor = .ok 0
    ∧ svgToGcodeInstrs [] ⟨some (0, 0, 5, 5), none⟩ 1000 500 (some 7) none
        = .ok [] :=
  ⟨rfl, rfl, rfl⟩

/-- C5 amended: with a requested target, the vector normalization fails
(by the division by zero that the spec taxonomy names
DegenerateGeometryError, producing no transform) for every nonempty
scene whose scanned bounding box has zero longest side, such as a
single point; an empty scene does not fail: its scan keeps the
float infinity sentinels, current_longest_side is -inf, and a
transform with scale -0.0 (exactly 0) is produced. -/
theorem degenerate_geometry_behavior :
    (∀ (paths : List SvgPath) (attrs : SvgAttributes) (x0 y0 w hgt t : ℚ),
      attrs.viewBox = some (x0, y0, w, hgt) →
      endpointList paths ≠ [] →
      currentLongestSide paths = 0 →
      calculateScalingFactorAndTransform paths attrs (some t)
        = .error PyError.zeroDivisionError)
    ∧ (∀ (paths : List SvgPath) (attrs : SvgAttributes) (x0 y0 w hgt t : ℚ),
      attrs.viewBox = some (x0, y0, w, hgt) →
      endpointList paths = [] →
      (calculateScalingFactorAndTransform paths attrs (some t)).map
          TransformResult.scaleFactor = .ok 0) := by
  constructor
  · intro paths attrs x0 y0 w hgt t hvb hne hL
    have hX : currentLongestSideX paths = .fin 0 := by
      rw [currentLongestSideX_fin paths hne, hL]
    unfold calculateScalingFactorAndTransform extractSvgHeight
    rw [hvb]
    simp [hX]
  · intro paths attrs x0 y0 w hgt t hvb hnil
    have hX : currentLongestSideX paths = .negInf :=
      currentLongestSideX_nil paths hnil
    unfold calculateScalingFactorAndTransform extractSvgHeight
    rw [hvb]
    simp [hX, Except.map]

/-- Witness for C5 at a single-point scene (which fails) and the empty
scene (which succeeds with scale 0), both with a declared view-box and
target 7. -/
theorem degenerate_geometry_behavior_witness :
    endpointList [[⟨SegKind.line, (1, 1), (1, 1)⟩]] ≠ []
    ∧ currentLongestSide [[⟨SegKind.line, (1, 1), (1, 1)⟩]] = 0
    ∧ calculateScalingFactorAndTransform [[⟨SegKind.line, (1, 1), (1, 1)⟩]]
        ⟨some (0, 0, 5, 5), none⟩ (some 7) = .error PyError.zeroDivisionError
    ∧ endpointList ([] : List SvgPath) = []
    ∧ (calculateScalingFactorAndTransform ([] : List SvgPath)
        ⟨some (0, 0, 5, 5), none⟩ (some 7)).map TransformResult.scaleFactor
        = .ok 0 := by
  have hL : currentLongestSide [[⟨SegKind.line, (1, 1), (1, 1)⟩]] = 0 := by
    simp [currentLongestSide, ptsLongestSide, ptsMaxX, ptsMinX, ptsMaxY, ptsMinY,
      endpointList, minOver, maxOver]
  refine ⟨by decide, hL, ?_, rfl, ?_⟩
  · exact degenerate_geometry_behavior.1 [[⟨SegKind.line, (1, 1), (1, 1)⟩]]
      ⟨some (0, 0, 5, 5), none⟩ 0 0 5 5 7 rfl (by decide) hL
  · exact degenerate_geometry_behavior.2 [] ⟨some (0, 0, 5, 5), none⟩ 0 0 5 5 7 rfl rfl

/-- C6 (code bug): the view-box branch yields the declared height and the
missing-both case fails as claimed, but the height-attribute branch
never yields the parsed height: src/svg_to_gcode.py line 177 reads the
undefined identifier s_attr, so a source declaring only a height
attribute fails with a NameError instead of using its numeric value. -/
theorem height_extraction_behavior :
    extractSvgHeight ⟨some (0, 0, 30, 40), none⟩ = .ok 40
    ∧ extractSvgHeight ⟨none, some "100mm"⟩ = .error PyError.nameError
    ∧ extractSvgHeight ⟨none, none⟩ = .error PyError.valueErrorNoHeight :=
  ⟨rfl, rfl, rfl⟩

/-- C7 counterexample: called with negative power and feed rate, both
converters produce output instead of failing; the raster stream
contains the laser-on command with the negative power verbatim. -/
theorem no_validation_cex :
    Instr.laserOn (-5) ∈
        imageToGcodeInstrs [[(0, 0), (1, 1)]] [2, 2] (-5) (-7) none none
    ∧ imageToGcodeInstrs [[(0, 0), (1, 1)]] [2, 2] (-5) (-7) none none ≠ []
    ∧ (svgToGcodeInstrs [[⟨SegKind.line, (0, 0), (1, 0)⟩]]
        ⟨some (0, 0, 2, 2), none⟩ (-5) (-7) none none).map List.length = .ok 4 := by
  refine ⟨by decide, by decide, rfl⟩

/-- C7 amended: neither converter validates power or feed rate; arbitrary
values, including zero or negative ones, are accepted and emitted
verbatim into the instruction stream. -/
theorem no_parameter_validation (p f : ℤ) (s mnx ox oy : ℚ) (pt : ℚ × ℚ)
    (rest : List (ℚ × ℚ)) (more : List (List (ℚ × ℚ)))
    (seg : Segment) (segs : SvgPath) :
    Instr.laserOn p ∈ generateGcode ((pt :: rest) :: more) p f s ox oy
    ∧ Instr.laserOn p ∈ pathToGcode (seg :: segs) s mnx ox oy f p
    ∧ Instr.linearMove ((seg.stop.1 - mnx) * s + ox) (seg.stop.2 * s + oy) f
        ∈ pathToGcode (seg :: segs) s mnx ox oy f p := by
  refine ⟨?_, ?_, ?_⟩
  · simp [generateGcode, contourToGcode]
  · simp [pathToGcode]
  · simp [pathToGcode]

/-- C8 counterexample: the final return-to-origin line is the literal
G0 X0 Y0 in both converters, not the three-decimal G0 X0.000 Y0.000
the serializer produces for emitted rapid moves. -/
theorem home_line_not_formatted_cex :
    (svgOutputLines []).getLast? = some "G0 X0 Y0"
    ∧ (imageOutputLines []).getLast? = some "G0 X0 Y0"
    ∧ serializeInstrSvg (Instr.rapidMove 0 0) = "G0 X0.000 Y0.000"
    ∧ ("G0 X0 Y0" : String) ≠ "G0 X0.000 Y0.000" := by
  refine ⟨rfl, rfl, ?_, by decide⟩
  have h : round ((0 : ℚ) * 1000) = 0 := by norm_num
  simp only [serializeInstrSvg, fmt3, h]
  decide

/-- C8 amended: each emitted instruction serializes to exactly one output
line (one line-list entry per instruction, plus the three setup lines
and the home line), every fixed-point coordinate carries exactly three
decimal digits, and the final line is the literal G0 X0 Y0 rather than
a three-decimal rapid move. -/
theorem serialization_line_structure (instrs : List Instr) :
    (svgOutputLines instrs).length = instrs.length + 4
    ∧ (imageOutputLines instrs).length = instrs.length + 4
    ∧ (svgOutputLines instrs).getLast? = some homeLine
    ∧ (imageOutputLines instrs).getLast? = some homeLine
    ∧ ∀ q : ℚ, ∃ intPart : String, ∃ k : ℕ, k < 1000
        ∧ fmt3 q = intPart ++ "." ++ pad3 k ∧ (pad3 k).length = 3 := by
  refine ⟨?_, ?_, ?_, ?_, ?_⟩
  · simp [svgOutputLines, svgSetupLines]
  · simp [imageOutputLines, imageSetupLines]
  · exact List.getLast?_concat _
  · exact List.getLast?_concat _
  · intro q
    refine ⟨(if q < 0 then "-" else "") ++ ((round (q * 1000)).natAbs / 1000).repr,
      (round (q * 1000)).natAbs % 1000, Nat.mod_lt _ (by norm_num), rfl, rfl⟩

/-- C9 counterexample: computing the normalization transform does mutate
the scene: the vector normalizer flips every point in place, so its
post-state path list differs from the original. -/
theorem normalize_mutates_cex :
    calculateScalingFactorAndTransform [[⟨SegKind.line, (0, 1), (0, 2)⟩]]
        ⟨some (0, 0, 10, 10), none⟩ none
      = .ok ⟨1, 0, 10, [[⟨SegKind.line, (0, 9), (0, 8)⟩]]⟩
    ∧ ([[⟨SegKind.line, (0, 9), (0, 8)⟩]] : List SvgPath)
        ≠ [[⟨SegKind.line, (0, 1), (0, 2)⟩]] := by
  constructor
  · norm_num [calculateScalingFactorAndTransform, extractSvgHeight, currentLongestSide,
      ptsLongestSide, ptsMinX, ptsMaxX, ptsMinY, ptsMaxY, minOver, maxOver,
      endpointList, flipPaths, flipSeg]
  · decide

/-- C9 amended: the vector normalizer mutates the scene: its post-state
is exactly the flipped path list, with every x coordinate untouched, and
flipping the post-state once more restores the original points; the
raster converter's transform computation reads only the image shape and
the options, never the contours. -/
theorem normalize_mutation_shape (paths : List SvgPath) (attrs : SvgAttributes)
    (ls : Option ℚ) (r : TransformResult)
    (hr : calculateScalingFactorAndTransform paths attrs ls = .ok r) :
    r.flipped = flipPaths r.svgHeight paths
    ∧ xProj r.flipped = xProj paths
    ∧ flipPaths r.svgHeight r.flipped = paths := by
  obtain ⟨-, -, hflip, -⟩ := calc_inv hr
  refine ⟨hflip, ?_, ?_⟩
  · rw [hflip]
    exact xProj_flipPaths _ _
  · rw [hflip]
    exact flipPaths_flipPaths _ _

/-- Witness for C9 at a one-segment scene with view-box height 10. -/
theorem normalize_mutation_shape_witness :
    calculateScalingFactorAndTransform [[⟨SegKind.line, (0, 1), (4, 2)⟩]]
        ⟨some (0, 0, 10, 10), none⟩ none
      = .ok ⟨1, 0, 10, [[⟨SegKind.line, (0, 9), (4, 8)⟩]]⟩
    ∧ ([[⟨SegKind.line, (0, 9), (4, 8)⟩]] : List SvgPath)
        = flipPaths 10 [[⟨SegKind.line, (0, 1), (4, 2)⟩]]
    ∧ xProj [[⟨SegKind.line, (0, 9), (4, 8)⟩]] = xProj [[⟨SegKind.line, (0, 1), (4, 2)⟩]]
    ∧ flipPaths 10 [[⟨SegKind.line, (0, 9), (4, 8)⟩]]
        = [[⟨SegKind.line, (0, 1), (4, 2)⟩]] := by
  have hcalc : calculateScalingFactorAndTransform [[⟨SegKind.line, (0, 1), (4, 2)⟩]]
      ⟨some (0, 0, 10, 10), none⟩ none
      = .ok ⟨1, 0, 10, [[⟨SegKind.line, (0, 9), (4, 8)⟩]]⟩ := by
    norm_num [calculateScalingFactorAndTransform, extractSvgHeight, currentLongestSide,
      ptsLongestSide, ptsMinX, ptsMaxX, ptsMinY, ptsMaxY, minOver, maxOver,
      endpointList, flipPaths, flipSeg]
  have h := normalize_mutation_shape [[⟨SegKind.line, (0, 1), (4, 2)⟩]]
    ⟨some (0, 0, 10, 10), none⟩ none ⟨1, 0, 10, [[⟨SegKind.line, (0, 9), (4, 8)⟩]]⟩ hcalc
  exact ⟨hcalc, h.1, h.2.1, h.2.2⟩

/-- C3 counterexample: on one svg path of two segments (three points),
the vector converter emits 8 instructions with 2 laser-off commands,
not the claimed 1 + 1 + (3 - 1) + 1 = 5 instructions with a single
laser-off per curve: the laser is toggled per segment. -/
theorem per_segment_laser_cex :
    (svgToGcodeInstrs [[⟨SegKind.line, (0, 0), (1, 0)⟩, ⟨SegKind.line, (1, 0), (1, 1)⟩]]
        ⟨some (0, 0, 2, 2), none⟩ 50 100 none none).map countLaserOff = .ok 2
    ∧ (svgToGcodeInstrs [[⟨SegKind.line, (0, 0), (1, 0)⟩, ⟨SegKind.line, (1, 0), (1, 1)⟩]]
        ⟨some (0, 0, 2, 2), none⟩ 50 100 none none).map List.length = .ok 8
    ∧ (2 : ℕ) ≠ 1 ∧ (8 : ℕ) ≠ 5 := by
  refine ⟨?_, ?_, by decide, by decide⟩ <;>
  · norm_num [svgToGcodeInstrs, calculateScalingFactorAndTransform, extractSvgHeight,
      currentLongestSide, ptsLongestSide, ptsMinX, ptsMaxX, ptsMinY, ptsMaxY, minOver,
      maxOver, endpointList, flipPaths, flipSeg, pathToGcode, svgOffsetX, svgOffsetY]
    rfl

/-- C3 amended: the raster emitter produces, per contour, one rapid move,
one laser-on, one linear move per subsequent point, and exactly one
laser-off per contour (then the serializer appends the home line); the
vector emitter instead toggles per segment: a path of k segments yields
4k instructions containing k laser-off commands. -/
theorem emission_structure (contours : List (List (ℚ × ℚ)))
    (hc : ∀ c ∈ contours, c ≠ []) (p f : ℤ) (s ox oy mnx : ℚ) (path : SvgPath) :
    (generateGcode contours p f s ox oy).length
        = (contours.map (fun c => c.length + 2)).sum
    ∧ countLaserOff (generateGcode contours p f s ox oy) = contours.length
    ∧ (pathToGcode path s mnx ox oy f p).length = 4 * path.length
    ∧ countLaserOff (pathToGcode path s mnx ox oy f p) = path.length := by
  refine ⟨?_, ?_, ?_, ?_⟩
  · induction contours with
    | nil => rfl
    | cons c cs ih =>
      have hcc : c ≠ [] := hc c (List.mem_cons_self c cs)
      have ih' := ih (fun d hd => hc d (List.mem_cons_of_mem c hd))
      simp only [generateGcode, List.flatMap_cons, List.length_append, List.map_cons,
        List.sum_cons] at *
      rw [ih', length_contourToGcode _ _ _ _ _ _ hcc]
  · induction contours with
    | nil => rfl
    | cons c cs ih =>
      have ih' := ih (fun d hd => hc d (List.mem_cons_of_mem c hd))
      simp only [generateGcode, List.flatMap_cons, countLaserOff, List.countP_append,
        List.length_cons] at *
      rw [ih']
      have h1 := countLaserOff_contourToGcode s ox oy p f c
      simp only [countLaserOff] at h1
      rw [h1]
      omega
  · induction path with
    | nil => rfl
    | cons sg sgs ih =>
      simp only [pathToGcode, List.flatMap_cons, List.length_append, List.length_cons] at *
      rw [ih]
      simp [Nat.mul_succ]
      omega
  · induction path with
    | nil => rfl
    | cons sg sgs ih =>
      simp only [pathToGcode, List.flatMap_cons, countLaserOff, List.countP_append,
        List.countP_cons, List.length_cons, isLaserOff] at *
      rw [ih]
      simp [isLaserOff]
      omega

/-- Witness for C3 at one two-point contour and one two-segment path. -/
theorem emission_structure_witness :
    (∀ c ∈ [[((0 : ℚ), (0 : ℚ)), (1, 0)]], c ≠ [])
    ∧ (generateGcode [[(0, 0), (1, 0)]] 50 100 1 0 0).length
        = (([[((0 : ℚ), (0 : ℚ)), (1, 0)]].map (fun c => c.length + 2)).sum)
    ∧ countLaserOff (generateGcode [[(0, 0), (1, 0)]] 50 100 1 0 0) = 1
    ∧ (pathToGcode [⟨SegKind.line, (0, 0), (1, 0)⟩, ⟨SegKind.line, (1, 0), (1, 1)⟩]
        1 0 0 0 100 50).length = 4 * 2
    ∧ countLaserOff (pathToGcode [⟨SegKind.line, (0, 0), (1, 0)⟩,
        ⟨SegKind.line, (1, 0), (1, 1)⟩] 1 0 0 0 100 50) = 2 := by
  have h := emission_structure [[(0, 0), (1, 0)]] (by decide) 50 100 1 0 0 0
    [⟨SegKind.line, (0, 0), (1, 0)⟩, ⟨SegKind.line, (1, 0), (1, 1)⟩]
  exact ⟨by decide, h.1, h.2.1, h.2.2.1, h.2.2.2⟩

/-- C4: the vertical flip replaces every point's y by svg_height - y
before scale and offset are applied: flipping twice with the same height
restores the original scene, the flip of a segment changes exactly the
y coordinates to svg_height - y, and the emitted motion targets apply
scale and offset to the already-flipped y coordinate. -/
theorem flip_formula_and_involution :
    (∀ (h : ℚ) (paths : List SvgPath), flipPaths h (flipPaths h paths) = paths)
    ∧ (∀ (h : ℚ) (seg : Segment),
        (flipSeg h seg).start = (seg.start.1, h - seg.start.2)
        ∧ (flipSeg h seg).stop = (seg.stop.1, h - seg.stop.2))
    ∧ (∀ (path : SvgPath) (h s mnx ox oy : ℚ) (f p : ℤ) (seg : Segment),
        seg ∈ path →
        Instr.rapidMove ((seg.start.1 - mnx) * s + ox) ((h - seg.start.2) * s + oy)
          ∈ pathToGcode (path.map (flipSeg h)) s mnx ox oy f p) := by
  refine ⟨flipPaths_flipPaths, ?_, ?_⟩
  · intro h seg
    exact ⟨rfl, rfl⟩
  · intro path h s mnx ox oy f p seg hseg
    have hmem : flipSeg h seg ∈ path.map (flipSeg h) := List.mem_map_of_mem _ hseg
    refine List.mem_flatMap.mpr ⟨flipSeg h seg, hmem, ?_⟩
    exact List.mem_cons_self _ _

/-- Witness for C4: flipping a one-segment scene twice restores it, and
the emitted rapid move of the flipped segment carries the flipped,
scaled and offset coordinates. -/
theorem flip_formula_witness :
    flipPaths 10 (flipPaths 10 [[⟨SegKind.line, (3, 4), (5, 6)⟩]])
        = [[⟨SegKind.line, (3, 4), (5, 6)⟩]]
    ∧ (⟨SegKind.line, (3, 4), (5, 6)⟩ : Segment)
        ∈ ([⟨SegKind.line, (3, 4), (5, 6)⟩] : SvgPath)
    ∧ Instr.rapidMove ((3 - 1) * 2 + 0) ((10 - 4) * 2 + 0)
        ∈ pathToGcode ([⟨SegKind.line, (3, 4), (5, 6)⟩].map (flipSeg 10)) 2 1 0 0 100 50 :=
  ⟨flip_formula_and_involution.1 10 _, by decide,
    flip_formula_and_involution.2.2 [⟨SegKind.line, (3, 4), (5, 6)⟩] 10 2 1 0 0 100 50
      ⟨SegKind.line, (3, 4), (5, 6)⟩ (by decide)⟩

/-- C10: the vector emitter treats every segment, whatever its kind, as a
single straight chord: the emitted stream is unchanged when every
segment's kind tag is replaced, it contains exactly one linear move per
segment, and every segment contributes a contiguous rapid-move /
laser-on / linear-move / laser-off block from its transformed start
point to its transformed end point. -/
theorem chord_per_segment (path : SvgPath) (k : SegKind) (s mnx ox oy : ℚ)
    (f p : ℤ) (seg : Segment) (hseg : seg ∈ path) :
    pathToGcode (path.map (fun sg => { sg with kind := k })) s mnx ox oy f p
        = pathToGcode path s mnx ox oy f p
    ∧ (pathToGcode path s mnx ox oy f p).countP isLinear = path.length
    ∧ ∃ pre post : List Instr,
        pathToGcode path s mnx ox oy f p = pre ++
          [Instr.rapidMove ((seg.start.1 - mnx) * s + ox) (seg.start.2 * s + oy),
           Instr.laserOn p,
           Instr.linearMove ((seg.stop.1 - mnx) * s + ox) (seg.stop.2 * s + oy) f,
           Instr.laserOff] ++ post := by
  refine ⟨?_, ?_, ?_⟩
  · simp [pathToGcode, List.flatMap_map]
  · clear hseg
    induction path with
    | nil => rfl
    | cons sg sgs ih =>
      simp only [pathToGcode, List.flatMap_cons, List.countP_append, List.countP_cons,
        isLinear, List.length_cons] at *
      rw [ih]
      simp [isLinear]
      omega
  · have hgen : ∀ (path' : SvgPath), seg ∈ path' →
        ∃ pre post : List Instr,
          pathToGcode path' s mnx ox oy f p = pre ++
            [Instr.rapidMove ((seg.start.1 - mnx) * s + ox) (seg.start.2 * s + oy),
             Instr.laserOn p,
             Instr.linearMove ((seg.stop.1 - mnx) * s + ox) (seg.stop.2 * s + oy) f,
             Instr.laserOff] ++ post := by
      intro path'
      induction path' with
      | nil => intro hmem; cases hmem
      | cons sg sgs ih =>
        intro hmem
        rcases List.mem_cons.mp hmem with rfl | hmem'
        · refine ⟨[], pathToGcode sgs s mnx ox oy f p, ?_⟩
          simp [pathToGcode, List.flatMap_cons]
        · obtain ⟨pre, post, hpp⟩ := ih hmem'
          refine ⟨[Instr.rapidMove ((sg.start.1 - mnx) * s + ox) (sg.start.2 * s + oy),
            Instr.laserOn p,
            Instr.linearMove ((sg.stop.1 - mnx) * s + ox) (sg.stop.2 * s + oy) f,
            Instr.laserOff] ++ pre, post, ?_⟩
          simp only [pathToGcode, List.flatMap_cons] at *
          rw [hpp]
          simp
    exact hgen path hseg

/-- Witness for C10 at a two-segment path whose first segment is an arc:
it is emitted exactly as the line version, with one linear move per
segment, and the arc's block is a straight chord. -/
theorem chord_per_segment_witness :
    (⟨SegKind.arc, (0, 0), (2, 2)⟩ : Segment)
        ∈ ([⟨SegKind.arc, (0, 0), (2, 2)⟩, ⟨SegKind.line, (2, 2), (3, 0)⟩] : SvgPath)
    ∧ pathToGcode (([⟨SegKind.arc, (0, 0), (2, 2)⟩,
          ⟨SegKind.line, (2, 2), (3, 0)⟩] : SvgPath).map
            (fun sg => { sg with kind := SegKind.line })) 1 0 0 0 100 50
        = pathToGcode [⟨SegKind.arc, (0, 0), (2, 2)⟩, ⟨SegKind.line, (2, 2), (3, 0)⟩]
            1 0 0 0 100 50
    ∧ (pathToGcode [⟨SegKind.arc, (0, 0), (2, 2)⟩, ⟨SegKind.line, (2, 2), (3, 0)⟩]
          1 0 0 0 100 50).countP isLinear = 2
    ∧ ∃ pre post : List Instr,
        pathToGcode [⟨SegKind.arc, (0, 0), (2, 2)⟩, ⟨SegKind.line, (2, 2), (3, 0)⟩]
            1 0 0 0 100 50 = pre ++
          [Instr.rapidMove ((0 - 0) * 1 + 0) (0 * 1 + 0),
           Instr.laserOn 50,
           Instr.linearMove ((2 - 0) * 1 + 0) (2 * 1 + 0) 100,
           Instr.laserOff] ++ post := by
  have h := chord_per_segment
    [⟨SegKind.arc, (0, 0), (2, 2)⟩, ⟨SegKind.line, (2, 2), (3, 0)⟩]
    SegKind.line 1 0 0 0 100 50 ⟨SegKind.arc, (0, 0), (2, 2)⟩ (by decide)
  exact ⟨by decide, h.1, h.2.1, h.2.2⟩

/-- C1 counterexample: the raster converter's scale factor divides the
target by the maximum of the image shape tuple (10 for a 10 x 10 x 3
image), not by the curve bounding box's longest side (5): with target
20 the scale is 2 rather than 20 / 5, and the transformed curve
bounding box's longest side is 10, not the requested 20. -/
theorem scale_from_image_shape_cex :
    imageScaleFactor [10, 10, 3] (some 20) = 2
    ∧ ptsLongestSide [((0 : ℚ), (0 : ℚ)), (5, 0), (5, 5), (0, 5)] = 5
    ∧ (2 : ℚ) ≠ 20 / 5
    ∧ ptsLongestSide (instrPoints (imageToGcodeInstrs
        [[(0, 0), (5, 0), (5, 5), (0, 5)]] [10, 10, 3] 1000 1000 (some 20) none)) = 10
    ∧ (10 : ℚ) ≠ 20 := by
  refine ⟨?_, ?_, by norm_num, ?_, by norm_num⟩
  · norm_num [imageScaleFactor, maxShape, maxOver]
  · norm_num [ptsLongestSide, ptsMinX, ptsMaxX, ptsMinY, ptsMaxY, minOver, maxOver]
  · norm_num [imageToGcodeInstrs, imageScaleFactor, imageOffset, maxShape,
      generateGcode, contourToGcode, transformPoint, instrPoints, ptsLongestSide,
      ptsMinX, ptsMaxX, ptsMinY, ptsMaxY, minOver, maxOver]

/-- C1 amended: with a requested target longest side t greater than 0,
the vector converter scales by t divided by the scanned segment
bounding box's longest side and the transformed bounding box's longest
side equals t exactly; the raster converter instead divides t by the
maximum of the loaded image's shape tuple (its pixel dimensions,
including the channel count), not by the curve bounding box; with no
target both converters use scale 1. -/
theorem scale_factor_behavior :
    (∀ (paths : List SvgPath) (attrs : SvgAttributes) (t : ℚ) (pw f : ℤ)
        (co : Option (ℚ × ℚ)) (r : TransformResult) (instrs : List Instr),
      endpointList paths ≠ [] → 0 < t →
      calculateScalingFactorAndTransform paths attrs (some t) = .ok r →
      svgToGcodeInstrs paths attrs pw f (some t) co = .ok instrs →
      r.scaleFactor = t / currentLongestSide paths
      ∧ ptsLongestSide (instrPoints instrs) = t)
    ∧ (∀ (shape : List ℕ) (t : ℚ), t ≠ 0 →
        imageScaleFactor shape (some t) = t / maxShape shape)
    ∧ (∀ shape : List ℕ, imageScaleFactor shape none = 1)
    ∧ (∀ (paths : List SvgPath) (attrs : SvgAttributes) (r : TransformResult),
        calculateScalingFactorAndTransform paths attrs none = .ok r →
        r.scaleFactor = 1) := by
  refine ⟨?_, ?_, ?_, ?_⟩
  · intro paths attrs t pw f co r instrs hne ht hcalc hinstr
    obtain ⟨-, -, -, hsc⟩ := calc_inv hcalc
    rcases hsc with ⟨hnone, -⟩ | ⟨t', ht', -, hLne, hs⟩ | ⟨t', -, hnil, -⟩
    rotate_right
    · exact absurd hnil hne
    · exact absurd hnone (by simp)
    cases Option.some.inj ht'
    refine ⟨hs, ?_⟩
    have hL0 : 0 ≤ currentLongestSide paths := ptsLongestSide_nonneg _ hne
    have hLpos : 0 < currentLongestSide paths := lt_of_le_of_ne hL0 (Ne.symm hLne)
    have hs0 : 0 ≤ r.scaleFactor := by
      rw [hs]
      positivity
    rw [instrPoints_svg_run hcalc hinstr]
    have hfun : (fun q : ℚ × ℚ =>
          ((q.1 - r.minX) * r.scaleFactor + svgOffsetX r (co.getD (0, 0)).1,
            q.2 * r.scaleFactor + svgOffsetY r (co.getD (0, 0)).2))
        = fun q : ℚ × ℚ =>
          (q.1 * r.scaleFactor +
              (svgOffsetX r (co.getD (0, 0)).1 - r.minX * r.scaleFactor),
            q.2 * r.scaleFactor + svgOffsetY r (co.getD (0, 0)).2) := by
      funext q
      simp only [Prod.mk.injEq, and_true]
      ring
    rw [hfun]
    have hne1 : (endpointList paths).map (fun q => (q.1, r.svgHeight - q.2)) ≠ [] := by
      simpa using hne
    rw [ptsLongestSide_map_affine _ _ _ hs0 _ hne1,
      ptsLongestSide_map_flip _ _ hne, hs, currentLongestSide, mul_comm,
      div_mul_cancel₀ _ (ne_of_gt (by rw [currentLongestSide] at hLpos; exact hLpos))]
  · intro shape t htz
    simp [imageScaleFactor, htz]
  · intro shape
    rfl
  · intro paths attrs r hcalc
    obtain ⟨-, -, -, hsc⟩ := calc_inv hcalc
    rcases hsc with ⟨-, hs1⟩ | ⟨t', ht', -, -, -⟩ | ⟨t', ht', -, -⟩
    · exact hs1
    · exact absurd ht' (by simp)
    · exact absurd ht' (by simp)

/-- Witness for C1 at a two-path scene (width 4, height 2, so longest
side 4), view-box height 9, target 8: scale 2 and transformed longest
side exactly 8. -/
theorem scale_factor_behavior_witness :
    endpointList [[⟨SegKind.line, (0, 0), (4, 0)⟩], [⟨SegKind.line, (0, 0), (0, 2)⟩]] ≠ []
    ∧ (0 : ℚ) < 8
    ∧ calculateScalingFactorAndTransform
        [[⟨SegKind.line, (0, 0), (4, 0)⟩], [⟨SegKind.line, (0, 0), (0, 2)⟩]]
        ⟨some (0, 0, 9, 9), none⟩ (some 8)
      = .ok ⟨2, 0, 9, [[⟨SegKind.line, (0, 9), (4, 9)⟩], [⟨SegKind.line, (0, 9), (0, 7)⟩]]⟩
    ∧ svgToGcodeInstrs
        [[⟨SegKind.line, (0, 0), (4, 0)⟩], [⟨SegKind.line, (0, 0), (0, 2)⟩]]
        ⟨some (0, 0, 9, 9), none⟩ 1000 500 (some 8) none
      = .ok [Instr.rapidMove (-9) 9, Instr.laserOn 1000, Instr.linearMove (-1) 9 500,
          Instr.laserOff, Instr.rapidMove (-9) 9, Instr.laserOn 1000,
          Instr.linearMove (-9) 5 500, Instr.laserOff]
    ∧ (⟨2, 0, 9, [[⟨SegKind.line, (0, 9), (4, 9)⟩],
          [⟨SegKind.line, (0, 9), (0, 7)⟩]]⟩ : TransformResult).scaleFactor
        = 8 / currentLongestSide
            [[⟨SegKind.line, (0, 0), (4, 0)⟩], [⟨SegKind.line, (0, 0), (0, 2)⟩]]
    ∧ ptsLongestSide (instrPoints [Instr.rapidMove (-9) 9, Instr.laserOn 1000,
        Instr.linearMove (-1) 9 500, Instr.laserOff, Instr.rapidMove (-9) 9,
        Instr.laserOn 1000, Instr.linearMove (-9) 5 500, Instr.laserOff]) = 8 := by
  have hcalc : calculateScalingFactorAndTransform
      [[⟨SegKind.line, (0, 0), (4, 0)⟩], [⟨SegKind.line, (0, 0), (0, 2)⟩]]
      ⟨some (0, 0, 9, 9), none⟩ (some 8)
      = .ok ⟨2, 0, 9, [[⟨SegKind.line, (0, 9), (4, 9)⟩],
          [⟨SegKind.line, (0, 9), (0, 7)⟩]]⟩ := by
    norm_num [calculateScalingFactorAndTransform, extractSvgHeight,
      currentLongestSideX, scanMin, scanMax, XFloat.fmin, XFloat.fmax, XFloat.fsub,
      ptsMinX, ptsMaxX, ptsMinY, ptsMaxY, minOver, maxOver,
      endpointList, flipPaths, flipSeg]
  have hinstr : svgToGcodeInstrs
      [[⟨SegKind.line, (0, 0), (4, 0)⟩], [⟨SegKind.line, (0, 0), (0, 2)⟩]]
      ⟨some (0, 0, 9, 9), none⟩ 1000 500 (some 8) none
      = .ok [Instr.rapidMove (-9) 9, Instr.laserOn 1000, Instr.linearMove (-1) 9 500,
          Instr.laserOff, Instr.rapidMove (-9) 9, Instr.laserOn 1000,
          Instr.linearMove (-9) 5 500, Instr.laserOff] := by
    rw [svgToGcodeInstrs_ok hcalc]
    norm_num [pathToGcode, svgOffsetX, svgOffsetY]
  have h := scale_factor_behavior.1
    [[⟨SegKind.line, (0, 0), (4, 0)⟩], [⟨SegKind.line, (0, 0), (0, 2)⟩]]
    ⟨some (0, 0, 9, 9), none⟩ 8 1000 500 none _ _ (by decide) (by norm_num) hcalc hinstr
  exact ⟨by decide, by norm_num, hcalc, hinstr, h.1, h.2⟩

/-- C2 counterexample: the raster converter uses the placement point
directly as the offset, so a contour whose scaled center is not at the
origin lands with its center away from the requested point ((11, 10)
instead of (10, 10)); the vector converter's center estimate conflates
the document height with the width, so the transformed center is
(-3, 4) instead of the requested (0, 0); and with no placement the
vector offset is not (0, 0): the first emitted point is (-5, 5), not
the unshifted flipped point (0, 10). -/
theorem centering_cex :
    ptsCenter (instrPoints (imageToGcodeInstrs [[(0, 0), (2, 0)]] [5, 5] 10 10
        none (some (10, 10)))) = (11, 10)
    ∧ ((11 : ℚ), (10 : ℚ)) ≠ ((10 : ℚ), (10 : ℚ))
    ∧ (svgToGcodeInstrs [[⟨SegKind.line, (0, 0), (4, 2)⟩]] ⟨some (0, 0, 10, 10), none⟩
        100 100 none (some (0, 0))).map (fun l => ptsCenter (instrPoints l))
      = .ok (-3, 4)
    ∧ ((-3 : ℚ), (4 : ℚ)) ≠ ((0 : ℚ), (0 : ℚ))
    ∧ (svgToGcodeInstrs [[⟨SegKind.line, (0, 0), (4, 2)⟩]] ⟨some (0, 0, 10, 10), none⟩
        100 100 none none).map (fun l => (instrPoints l).head?)
      = .ok (some (-5, 5))
    ∧ some ((-5 : ℚ), (5 : ℚ)) ≠ some ((0 : ℚ), (10 : ℚ)) := by
  have hcalc1 : calculateScalingFactorAndTransform [[⟨SegKind.line, (0, 0), (4, 2)⟩]]
      ⟨some (0, 0, 10, 10), none⟩ none
      = .ok ⟨1, 0, 10, [[⟨SegKind.line, (0, 10), (4, 8)⟩]]⟩ := by
    norm_num [calculateScalingFactorAndTransform, extractSvgHeight, currentLongestSide,
      ptsLongestSide, ptsMinX, ptsMaxX, ptsMinY, ptsMaxY, minOver, maxOver,
      endpointList, flipPaths, flipSeg]
  have hinstr1 : svgToGcodeInstrs [[⟨SegKind.line, (0, 0), (4, 2)⟩]]
      ⟨some (0, 0, 10, 10), none⟩ 100 100 none (some (0, 0))
      = .ok [Instr.rapidMove (-5) 5, Instr.laserOn 100, Instr.linearMove (-1) 3 100,
          Instr.laserOff] := by
    rw [svgToGcodeInstrs_ok hcalc1]
    norm_num [pathToGcode, svgOffsetX, svgOffsetY]
  have hinstr2 : svgToGcodeInstrs [[⟨SegKind.line, (0, 0), (4, 2)⟩]]
      ⟨some (0, 0, 10, 10), none⟩ 100 100 none none
      = .ok [Instr.rapidMove (-5) 5, Instr.laserOn 100, Instr.linearMove (-1) 3 100,
          Instr.laserOff] := by
    rw [svgToGcodeInstrs_ok hcalc1]
    norm_num [pathToGcode, svgOffsetX, svgOffsetY]
  refine ⟨?_, by norm_num, ?_, by norm_num, ?_, by norm_num⟩
  · norm_num [imageToGcodeInstrs, imageScaleFactor, imageOffset, generateGcode,
      contourToGcode, transformPoint, instrPoints, ptsCenter, ptsMinX, ptsMaxX,
      ptsMinY, ptsMaxY, minOver, maxOver]
  · rw [hinstr1]
    norm_num [Except.map, instrPoints, ptsCenter, ptsMinX, ptsMaxX, ptsMinY,
      ptsMaxY, minOver, maxOver]
  · rw [hinstr2]
    norm_num [Except.map, instrPoints]

/-- C2 amended: the raster converter uses the placement directly as the
offset ((0, 0) when absent), so the transformed bounding-box center
equals the placement plus the scaled original center, reaching the
placement only when the scaled center sits at the origin; the vector
converter subtracts a center estimate that conflates the document
height with the path width, so the transformed center misses the
placement P by exactly (scale * (max_x - svg_height) / 2 - min_x,
scale * (svg_height - min_y - max_y) / 2). -/
theorem centering_behavior :
    (∀ co : Option (ℚ × ℚ), imageOffset co = co.getD (0, 0))
    ∧ (∀ (contours : List (List (ℚ × ℚ))) (shape : List ℕ) (p f : ℤ)
        (ls : Option ℚ) (P : ℚ × ℚ),
        contours.flatten ≠ [] → 0 ≤ imageScaleFactor shape ls →
        ptsCenter (instrPoints (imageToGcodeInstrs contours shape p f ls (some P)))
          = ((ptsCenter contours.flatten).1 * imageScaleFactor shape ls + P.1,
             (ptsCenter contours.flatten).2 * imageScaleFactor shape ls + P.2))
    ∧ (∀ (paths : List SvgPath) (attrs : SvgAttributes) (pw f : ℤ) (ls : Option ℚ)
        (P : ℚ × ℚ) (r : TransformResult) (instrs : List Instr),
        endpointList paths ≠ [] → 0 ≤ r.scaleFactor →
        calculateScalingFactorAndTransform paths attrs ls = .ok r →
        svgToGcodeInstrs paths attrs pw f ls (some P) = .ok instrs →
        ptsCenter (instrPoints instrs)
          = (P.1 + r.scaleFactor * (ptsMaxX (endpointList paths) - r.svgHeight) / 2
               - r.minX,
             P.2 + r.scaleFactor * (r.svgHeight - ptsMinY (endpointList paths)
               - ptsMaxY (endpointList paths)) / 2)) := by
  refine ⟨?_, ?_, ?_⟩
  · intro co
    rfl
  · intro contours shape p f ls P hne hs0
    have hrun : imageToGcodeInstrs contours shape p f ls (some P)
        = generateGcode contours p f (imageScaleFactor shape ls) P.1 P.2 := rfl
    rw [hrun, instrPoints_generateGcode]
    have htp : transformPoint (imageScaleFactor shape ls) P.1 P.2
        = fun q : ℚ × ℚ => (q.1 * imageScaleFactor shape ls + P.1,
            q.2 * imageScaleFactor shape ls + P.2) := by
      funext q
      rfl
    rw [htp, ptsCenter_map_affine _ _ _ hs0 _ hne]
  · intro paths attrs pw f ls P r instrs hne hs0 hcalc hinstr
    obtain ⟨-, hminx, -, -⟩ := calc_inv hcalc
    rw [instrPoints_svg_run hcalc hinstr]
    simp only [Option.getD_some]
    have hfun : (fun q : ℚ × ℚ =>
          ((q.1 - r.minX) * r.scaleFactor + svgOffsetX r P.1,
            q.2 * r.scaleFactor + svgOffsetY r P.2))
        = fun q : ℚ × ℚ =>
          (q.1 * r.scaleFactor + (svgOffsetX r P.1 - r.minX * r.scaleFactor),
            q.2 * r.scaleFactor + svgOffsetY r P.2) := by
      funext q
      simp only [Prod.mk.injEq, and_true]
      ring
    rw [hfun]
    have hne1 : (endpointList paths).map (fun q => (q.1, r.svgHeight - q.2)) ≠ [] := by
      simpa using hne
    rw [ptsCenter_map_affine _ _ _ hs0 _ hne1, ptsCenter_map_flip _ _ hne]
    simp only [svgOffsetX, svgOffsetY, ptsCenter, Prod.mk.injEq]
    rw [hminx]
    constructor <;> ring

/-- Witness for C2: a raster contour placed at (10, 10) centers at
(11, 10) = placement plus scaled original center, and a one-segment
svg scene placed at (0, 0) centers at (-3, 4), exactly the predicted
miss. -/
theorem centering_behavior_witness :
    ([[((0 : ℚ), (0 : ℚ)), (2, 0)]].flatten ≠ [])
    ∧ 0 ≤ imageScaleFactor [5, 5] none
    ∧ ptsCenter (instrPoints (imageToGcodeInstrs [[(0, 0), (2, 0)]] [5, 5] 10 10
        none (some (10, 10)))) = (11, 10)
    ∧ endpointList [[⟨SegKind.line, (0, 0), (4, 2)⟩]] ≠ []
    ∧ calculateScalingFactorAndTransform [[⟨SegKind.line, (0, 0), (4, 2)⟩]]
        ⟨some (0, 0, 10, 10), none⟩ none
      = .ok ⟨1, 0, 10, [[⟨SegKind.line, (0, 10), (4, 8)⟩]]⟩
    ∧ svgToGcodeInstrs [[⟨SegKind.line, (0, 0), (4, 2)⟩]] ⟨some (0, 0, 10, 10), none⟩
        100 100 none (some (0, 0))
      = .ok [Instr.rapidMove (-5) 5, Instr.laserOn 100, Instr.linearMove (-1) 3 100,
          Instr.laserOff]
    ∧ ptsCenter (instrPoints [Instr.rapidMove (-5) 5, Instr.laserOn 100,
        Instr.linearMove (-1) 3 100, Instr.laserOff]) = (-3, 4) := by
  have hcalc : calculateScalingFactorAndTransform [[⟨SegKind.line, (0, 0), (4, 2)⟩]]
      ⟨some (0, 0, 10, 10), none⟩ none
      = .ok ⟨1, 0, 10, [[⟨SegKind.line, (0, 10), (4, 8)⟩]]⟩ := by
    norm_num [calculateScalingFactorAndTransform, extractSvgHeight, currentLongestSide,
      ptsLongestSide, ptsMinX, ptsMaxX, ptsMinY, ptsMaxY, minOver, maxOver,
      endpointList, flipPaths, flipSeg]
  have hinstr : svgToGcodeInstrs [[⟨SegKind.line, (0, 0), (4, 2)⟩]]
      ⟨some (0, 0, 10, 10), none⟩ 100 100 none (some (0, 0))
      = .ok [Instr.rapidMove (-5) 5, Instr.laserOn 100, Instr.linearMove (-1) 3 100,
          Instr.laserOff] := by
    rw [svgToGcodeInstrs_ok hcalc]
    norm_num [pathToGcode, svgOffsetX, svgOffsetY]
  have h2 := centering_behavior.2.1 [[(0, 0), (2, 0)]] [5, 5] 10 10 none (10, 10)
    (by decide) (by norm_num [imageScaleFactor])
  have h3 := centering_behavior.2.2 [[⟨SegKind.line, (0, 0), (4, 2)⟩]]
    ⟨some (0, 0, 10, 10), none⟩ 100 100 none (0, 0)
    ⟨1, 0, 10, [[⟨SegKind.line, (0, 10), (4, 8)⟩]]⟩
    [Instr.rapidMove (-5) 5, Instr.laserOn 100, Instr.linearMove (-1) 3 100,
      Instr.laserOff]
    (by decide) (by norm_num) hcalc hinstr
  refine ⟨by decide, by norm_num [imageScaleFactor], ?_, by decide, hcalc, hinstr, ?_⟩
  · rw [h2]
    norm_num [ptsCenter, ptsMinX, ptsMaxX, ptsMinY, ptsMaxY, minOver, maxOver,
      imageScaleFactor]
  · rw [h3]
    norm_num [ptsMaxX, ptsMinY, ptsMaxY, minOver, maxOver, endpointList]

end GcodeConverter
